import Mathlib

/-!
Shallow embedding of the repo-pulse metrics pipeline
(src/lib/metrics.ts and src/lib/github.ts).

Conventions of the embedding:
* JavaScript numbers are modelled by `ℚ` (all arithmetic performed by the
  program stays within the rationals); counts are `ℕ` where the code can
  only produce naturals, and are cast to `ℚ` where the code mixes them
  into rational arithmetic.
* `Math.round x` is JavaScript rounding, `⌊x + 1/2⌋` (half-up, toward +∞);
  `Math.floor` is `Int.floor`.
* ISO-8601 date strings are modelled by their epoch value in milliseconds
  (`ℤ`): the code only ever feeds them to `new Date(...).getTime()`.
* Network effects are modelled by oracles: every fetch outcome the code
  branches on is an explicit input (an `Except`, or a list of per-page
  responses for the paginated fetch loops).
-/

namespace RepoPulse

/-- JavaScript `Math.round`: rounds half toward positive infinity. -/
def jsRound (x : ℚ) : ℤ := ⌊x + 1/2⌋

/-! ## GitHub API payload shapes (src/lib/github.ts interfaces) -/

/-- Fields of `GitHubReleaseAsset` consumed by the pipeline. -/
structure GitHubReleaseAsset where
  name : String
  size : ℕ
  download_count : ℕ
deriving Repr, DecidableEq

/-- Fields of `GitHubRelease` consumed by the pipeline.  `published_at` is
the epoch value of the ISO timestamp string. -/
structure GitHubRelease where
  tag_name : String
  name : Option String
  published_at : ℤ
  prerelease : Bool
  draft : Bool
  assets : List GitHubReleaseAsset
deriving Repr, DecidableEq

/-- Fields of `GitHubIssue` consumed by the pipeline; `state` is the string
`"open"` or `"closed"`, `created_at` the epoch value of the timestamp. -/
structure GitHubIssue where
  number : ℕ
  state : String
  created_at : ℤ
  comments : ℕ
deriving Repr, DecidableEq

/-- The nested `commit.author` record of a commit payload. -/
structure CommitAuthor where
  name : String
  email : String
  date : ℤ
deriving Repr, DecidableEq

/-- The nested `commit` record of a commit payload. -/
structure GitHubCommitInner where
  author : CommitAuthor
deriving Repr, DecidableEq

/-- Fields of `GitHubCommit` consumed by the pipeline; `author` is the
optional top-level author object, carrying its `login`. -/
structure GitHubCommit where
  sha : String
  commit : GitHubCommitInner
  author : Option String
deriving Repr, DecidableEq

/-- Fields of `GitHubRepository` consumed by the pipeline.  `license` is the
optional `license.name`; `updated_at` is the epoch value of the timestamp. -/
structure GitHubRepository where
  name : String
  full_name : String
  description : Option String
  stargazers_count : ℤ
  forks_count : ℤ
  open_issues_count : ℤ
  subscribers_count : ℕ
  updated_at : ℤ
  license : Option String
deriving Repr, DecidableEq

/-! ## Data model of src/lib/metrics.ts -/

/-- `ReleaseStats` of src/lib/metrics.ts.  Assets are kept as
(name, size, downloads) triples. -/
structure ReleaseStats where
  tag : String
  name : String
  publishedAt : ℤ
  daysAgo : ℤ
  totalDownloads : ℕ
  assetsCount : ℕ
  isPrerelease : Bool
  assets : List (String × ℕ × ℕ)
deriving Repr, DecidableEq

/-- `RepositoryMetrics` of src/lib/metrics.ts without its `healthScore`
field, i.e. the `Omit<RepositoryMetrics, 'healthScore'>` record that
`calculateHealthScore` consumes.  The numeric fields the score reads are
kept fully general (`ℚ`, `Option ℚ`). -/
structure MetricsData where
  owner : String
  name : String
  fullName : String
  description : Option String
  stars : ℤ
  forks : ℤ
  openIssues : ℤ
  medianIssueResponseTime : Option ℚ
  openIssuesCount : ℚ
  closedIssuesCount : ℚ
  totalCommitsLast90Days : ℚ
  topContributorRatio : ℚ
  releases : List ReleaseStats
  totalReleases : ℕ
  releasesLast90Days : ℕ
  totalDownloads : ℕ
  averageDownloadsPerRelease : ℤ
  latestRelease : Option ReleaseStats
  watchers : ℕ
  lastCommitDate : ℤ
  openPullRequests : ℕ
  license : Option String
  languages : List (String × ℕ)
  starsPerMonth : ℚ
  recentStarGrowth : ℚ
  prMergeRate : ℚ
  codeAdditions : ℕ
  codeDeletions : ℕ
  totalCodeChanges : ℕ
deriving Repr, DecidableEq

/-- The full `RepositoryMetrics` record, metrics data plus health score. -/
structure RepositoryMetrics extends MetricsData where
  healthScore : ℤ
deriving Repr, DecidableEq

/-- `AnalysisStatus` progress events of src/lib/metrics.ts. -/
structure AnalysisStatus where
  step : String
  message : String
  progress : ℕ
deriving Repr, DecidableEq

/-! ## calculateMedian (src/lib/metrics.ts lines 92-103) -/

/-- `calculateMedian` of src/lib/metrics.ts.  The JavaScript
`[...values].sort((a, b) => a - b)` ascending numeric sort is embedded as
`List.insertionSort (· ≤ ·)`: on numbers both produce the unique ascending
reordering.  Out-of-range indexing cannot occur; `getD _ 0` supplies the
(unreachable) default. -/
def calculateMedian (values : List ℚ) : Option ℚ :=
  if values.length = 0 then none
  else
    let sorted := values.insertionSort (· ≤ ·)
    let middle := sorted.length / 2
    if sorted.length % 2 = 0 then
      some ((sorted.getD (middle - 1) 0 + sorted.getD middle 0) / 2)
    else
      some (sorted.getD middle 0)

/-! ## calculateTopContributorRatio (src/lib/metrics.ts lines 169-189) -/

/-- The contributor key of one commit:
`commit.author?.login || commit.commit.author.email` — the commit-author
email is used when the top-level author object is absent, and also when its
login is the empty string (JavaScript `||` treats `""` as falsy). -/
def commitAuthorKey (c : GitHubCommit) : String :=
  match c.author with
  | some login => if login = "" then c.commit.author.email else login
  | none => c.commit.author.email

/-- `calculateTopContributorRatio` of src/lib/metrics.ts: group commits by
contributor key, take the largest group, return its share as a percentage;
0 for an empty commit list.  The `Map`-based counting is embedded by
`List.count` over the list of keys, and the maximum over the map's values
by a fold over the keys. -/
def calculateTopContributorRatio (commits : List GitHubCommit) : ℚ :=
  if commits.length = 0 then 0
  else
    let keys := commits.map commitAuthorKey
    let maxCommits := keys.foldl (fun m k => max m (keys.count k)) 0
    (maxCommits : ℚ) / (commits.length : ℚ) * 100

/-! ## calculateReleaseStats (src/lib/metrics.ts lines 194-243) -/

/-- The per-release mapping inside `calculateReleaseStats`:
`release.name || release.tag_name` falls back to the tag when the name is
null or the empty string; `daysAgo` is
`Math.floor((now - publishedAt) / 86400000)`. -/
def releaseToStats (now : ℤ) (release : GitHubRelease) : ReleaseStats :=
  { tag := release.tag_name
    name := match release.name with
      | some n => if n = "" then release.tag_name else n
      | none => release.tag_name
    publishedAt := release.published_at
    daysAgo := ⌊((now - release.published_at : ℤ) : ℚ) / (1000 * 60 * 60 * 24)⌋
    totalDownloads := release.assets.foldl (fun sum asset => sum + asset.download_count) 0
    assetsCount := release.assets.length
    isPrerelease := release.prerelease
    assets := release.assets.map fun asset => (asset.name, asset.size, asset.download_count) }

/-- The record returned by `calculateReleaseStats`. -/
structure ReleaseRollup where
  releases : List ReleaseStats
  totalReleases : ℕ
  releasesLast90Days : ℕ
  totalDownloads : ℕ
  averageDownloadsPerRelease : ℤ
  latestRelease : Option ReleaseStats
deriving Repr, DecidableEq

/-- `calculateReleaseStats` of src/lib/metrics.ts, with `Date.now()` passed
explicitly.  Note that `totalDownloads` (also the numerator of
`averageDownloadsPerRelease`) is reduced over ALL mapped releases, while
`totalReleases`, `averageDownloadsPerRelease`'s denominator and
`latestRelease` use only the non-prerelease entries. -/
def calculateReleaseStats (now : ℤ) (releases : List GitHubRelease) : ReleaseRollup :=
  let ninetyDaysAgo := now - 90 * 24 * 60 * 60 * 1000
  let releaseStats := releases.map (releaseToStats now)
  let recentReleases := releaseStats.filter fun r =>
    decide (ninetyDaysAgo ≤ r.publishedAt) && !r.isPrerelease
  let totalDownloads := releaseStats.foldl (fun sum r => sum + r.totalDownloads) 0
  let nonPrereleases := releaseStats.filter fun r => !r.isPrerelease
  { releases := releaseStats
    totalReleases := nonPrereleases.length
    releasesLast90Days := recentReleases.length
    totalDownloads := totalDownloads
    averageDownloadsPerRelease :=
      if 0 < nonPrereleases.length then
        jsRound ((totalDownloads : ℚ) / (nonPrereleases.length : ℚ))
      else 0
    latestRelease := nonPrereleases.head? }

/-! ## calculateHealthScore (src/lib/metrics.ts lines 255-305) -/

/-- Response-time contribution (20 points max) of `calculateHealthScore`. -/
def responseTimeScore (medianIssueResponseTime : Option ℚ) : ℤ :=
  match medianIssueResponseTime with
  | some t =>
    if t < 24 then 20
    else if t < 48 then 16
    else if t < 72 then 12
    else if t < 168 then 8
    else 4
  | none => 10

/-- Issue-resolution contribution (20 points max) of `calculateHealthScore`. -/
def issueResolutionScore (openIssuesCount closedIssuesCount : ℚ) : ℤ :=
  let totalIssues := openIssuesCount + closedIssuesCount
  if 0 < totalIssues then jsRound (closedIssuesCount / totalIssues * 20)
  else 10

/-- Commit-activity contribution (20 points max) of `calculateHealthScore`. -/
def commitActivityScore (totalCommitsLast90Days : ℚ) : ℤ :=
  if 100 ≤ totalCommitsLast90Days then 20
  else if 50 ≤ totalCommitsLast90Days then 16
  else if 20 ≤ totalCommitsLast90Days then 12
  else if 10 ≤ totalCommitsLast90Days then 8
  else jsRound (totalCommitsLast90Days / 10 * 8)

/-- Bus-factor contribution (20 points max) of `calculateHealthScore`. -/
def busFactorScore (topContributorRatio : ℚ) : ℤ :=
  if topContributorRatio < 40 then 20
  else if topContributorRatio < 50 then 16
  else if topContributorRatio < 60 then 12
  else if topContributorRatio < 70 then 8
  else 4

/-- Release-activity contribution (20 points max) of `calculateHealthScore`. -/
def releaseActivityScore (latestRelease : Option ReleaseStats) : ℤ :=
  match latestRelease with
  | some rel =>
    if rel.daysAgo ≤ 30 then 20
    else if rel.daysAgo ≤ 60 then 16
    else if rel.daysAgo ≤ 90 then 12
    else if rel.daysAgo ≤ 180 then 8
    else 4
  | none => 4

/-- `calculateHealthScore` of src/lib/metrics.ts: the five sub-scores
accumulated into `score` and finally `Math.min(100, Math.max(0, score))`.
Every branch adds an integer, so the result is an integer (`ℤ`). -/
def calculateHealthScore (metrics : MetricsData) : ℤ :=
  min 100 (max 0
    (responseTimeScore metrics.medianIssueResponseTime
      + issueResolutionScore metrics.openIssuesCount metrics.closedIssuesCount
      + commitActivityScore metrics.totalCommitsLast90Days
      + busFactorScore metrics.topContributorRatio
      + releaseActivityScore metrics.latestRelease))

/-! ## getHealthScoreInterpretation (src/lib/metrics.ts lines 507-537) -/

/-- The record returned by `getHealthScoreInterpretation`. -/
structure ScoreInterpretation where
  label : String
  description : String
  color : String
deriving Repr, DecidableEq

/-- `getHealthScoreInterpretation` of src/lib/metrics.ts: a four-band
lookup on the score, total over all numbers. -/
def getHealthScoreInterpretation (score : ℚ) : ScoreInterpretation :=
  if 80 ≤ score then
    { label := "Excellent"
      description := "This project is very healthy with active maintenance and community engagement."
      color := "green" }
  else if 60 ≤ score then
    { label := "Good"
      description := "This project is generally well-maintained with room for improvement."
      color := "blue" }
  else if 40 ≤ score then
    { label := "Fair"
      description := "This project shows some signs of maintenance but may have concerns."
      color := "yellow" }
  else
    { label := "Needs Attention"
      description := "This project may have maintenance or community engagement concerns."
      color := "red" }

/-! ## fetchWithRetry (src/lib/github.ts lines 38-67) -/

/-- One attempt's outcome as seen by `fetchWithRetry`: either `fetch`
resolved to a response with the given status code, or it rejected
(network-level failure). -/
inductive AttemptResult where
  | resp (status : ℕ)
  | netThrow
deriving Repr, DecidableEq

/-- The statuses `fetchWithRetry` retries on:
`403 || 502 || 503 || 504 || status >= 500`. -/
def retryableStatus (status : ℕ) : Bool :=
  status = 403 || status = 502 || status = 503 || status = 504 || 500 ≤ status

/-- The backoff before retrying after attempt `i`:
`Math.min(1000 * Math.pow(2, i), 8000)`. -/
def backoffDelay (i : ℕ) : ℕ := min (1000 * 2 ^ i) 8000

/-- `response.ok` of the Fetch API: status in [200, 300). -/
def responseOk (status : ℕ) : Bool := 200 ≤ status && status < 300

deriving instance DecidableEq for Except

/-- Observable behaviour of one `fetchWithRetry` call: how many attempts
(`fetch` invocations) were made, the waits inserted between consecutive
attempts (in ms, in order), and the result — `.ok status` when a response
was returned to the caller (retryable or not), `.error ()` when the final
attempt rejected and the error propagated. -/
structure RetryTrace where
  attempts : ℕ
  delays : List ℕ
  result : Except Unit ℕ
deriving Repr, DecidableEq

/-- The loop body of `fetchWithRetry`, at loop index `i` with
`remaining = retries - i` further indices available.  When `remaining = 0`
the test `i < retries` fails, so a response is returned as-is and a
rejection propagates. -/
def fetchWithRetryAux (f : ℕ → AttemptResult) (i : ℕ) : ℕ → RetryTrace
  | 0 =>
    match f i with
    | .resp status => { attempts := 1, delays := [], result := .ok status }
    | .netThrow => { attempts := 1, delays := [], result := .error () }
  | remaining + 1 =>
    match f i with
    | .resp status =>
      if retryableStatus status then
        let rest := fetchWithRetryAux f (i + 1) remaining
        { attempts := rest.attempts + 1, delays := backoffDelay i :: rest.delays,
          result := rest.result }
      else
        { attempts := 1, delays := [], result := .ok status }
    | .netThrow =>
      let rest := fetchWithRetryAux f (i + 1) remaining
      { attempts := rest.attempts + 1, delays := backoffDelay i :: rest.delays,
        result := rest.result }

/-- `fetchWithRetry` of src/lib/github.ts over the oracle `f` giving each
attempt's outcome, with retry budget `retries` (source default 3). -/
def fetchWithRetry (f : ℕ → AttemptResult) (retries : ℕ) : RetryTrace :=
  fetchWithRetryAux f 0 retries

/-! ## Paginated fetch loops (src/lib/github.ts) -/

/-- Outcome of fetching one page through `fetchWithRetry`: an HTTP-ok
response carrying items, a non-ok response with its status, or a rejection
(network failure after exhausting retries). -/
inductive PageResult (α : Type) where
  | ok (items : List α)
  | httpError (status : ℕ)
  | netFail
deriving Repr, DecidableEq

/-- A raw item of the issues endpoint: an issue payload plus the
`pull_request` marker the code filters on. -/
structure RawIssue where
  issue : GitHubIssue
  isPullRequest : Bool
deriving Repr, DecidableEq

/-- The pagination loop of `fetchIssues` (src/lib/github.ts lines 177-216)
over the per-page oracle `pages` (a page beyond the list is an empty `200`
response: the repository has no further issues).  Returns the
`(current, total)` pairs passed to `onProgress` in order, and the collected
issues or `.error ()` when the loop throws. -/
def fetchIssuesLoop (perPage : ℕ) (pages : List (PageResult RawIssue))
    (acc : List GitHubIssue) : List (ℕ × ℕ) × Except Unit (List GitHubIssue) :=
  if 500 ≤ acc.length then ([], .ok acc)
  else
    match pages with
    | [] => ([], .ok acc)
    | page :: rest =>
      match page with
      | .netFail => ([], .error ())
      | .httpError status => if status = 404 then ([], .ok acc) else ([], .error ())
      | .ok data =>
        if data.length = 0 then ([], .ok acc)
        else
          let actualIssues := (data.filter fun item => !item.isPullRequest).map
            fun item => item.issue
          let acc2 := acc ++ actualIssues
          if data.length < perPage then ([(acc2.length, 500)], .ok acc2)
          else
            let next := fetchIssuesLoop perPage rest acc2
            ((acc2.length, 500) :: next.1, next.2)

/-- `fetchIssues` as invoked by the orchestrator (`perPage = 100`). -/
def fetchIssuesModel (pages : List (PageResult RawIssue)) :
    List (ℕ × ℕ) × Except Unit (List GitHubIssue) :=
  fetchIssuesLoop 100 pages []

/-- The pagination loop of `fetchCommits` (src/lib/github.ts lines 249-288):
limit 1000, page size 100; a `504` or any `5xx` stops the loop keeping the
partial result, any other non-ok status throws. -/
def fetchCommitsLoop (pages : List (PageResult GitHubCommit))
    (acc : List GitHubCommit) : List (ℕ × ℕ) × Except Unit (List GitHubCommit) :=
  if 1000 ≤ acc.length then ([], .ok acc)
  else
    match pages with
    | [] => ([], .ok acc)
    | page :: rest =>
      match page with
      | .netFail => ([], .error ())
      | .httpError status =>
        if status = 504 || 500 ≤ status then ([], .ok acc) else ([], .error ())
      | .ok data =>
        if data.length = 0 then ([], .ok acc)
        else
          let acc2 := acc ++ data
          if data.length < 100 then ([(acc2.length, 1000)], .ok acc2)
          else
            let next := fetchCommitsLoop rest acc2
            ((acc2.length, 1000) :: next.1, next.2)

/-- `fetchCommits` as invoked by the orchestrator. -/
def fetchCommitsModel (pages : List (PageResult GitHubCommit)) :
    List (ℕ × ℕ) × Except Unit (List GitHubCommit) :=
  fetchCommitsLoop pages []

/-- The pagination loop of `fetchReleases` (src/lib/github.ts lines
293-331): caller-supplied `limit`, page size 100, drafts filtered out; a
`504` or any `5xx` stops the loop keeping the partial result, any other
non-ok status throws. -/
def fetchReleasesLoop (limit : ℕ) (pages : List (PageResult GitHubRelease))
    (acc : List GitHubRelease) : List (ℕ × ℕ) × Except Unit (List GitHubRelease) :=
  if limit ≤ acc.length then ([], .ok acc)
  else
    match pages with
    | [] => ([], .ok acc)
    | page :: rest =>
      match page with
      | .netFail => ([], .error ())
      | .httpError status =>
        if status = 504 || 500 ≤ status then ([], .ok acc) else ([], .error ())
      | .ok data =>
        if data.length = 0 then ([], .ok acc)
        else
          let validReleases := data.filter fun release => !release.draft
          let acc2 := acc ++ validReleases
          if data.length < 100 then ([(acc2.length, limit)], .ok acc2)
          else
            let next := fetchReleasesLoop limit rest acc2
            ((acc2.length, limit) :: next.1, next.2)

/-- `fetchReleases` as invoked by the orchestrator (`limit = 1000`). -/
def fetchReleasesModel (pages : List (PageResult GitHubRelease)) :
    List (ℕ × ℕ) × Except Unit (List GitHubRelease) :=
  fetchReleasesLoop 1000 pages []

/-! ## analyzeRepository (src/lib/metrics.ts lines 311-502) -/

/-- The `let x = default; try { x = await ... } catch { }` pattern: the
fetched value on success, the declared default when the step failed. -/
def caughtD {α : Type} (r : Except Unit α) (d : α) : α :=
  match r with
  | .ok v => v
  | .error _ => d

/-- Outcome of the issue-count reconciliation step (a raw `fetch` of the
search API): an ok response carrying `total_count`, a non-ok response
(`closedIssuesCount` keeps its initial 0), or a rejection (fall back to
counting the already-fetched issues). -/
inductive ClosedCountResult where
  | okCount (n : ℕ)
  | badStatus
  | netFail
deriving Repr, DecidableEq

/-- All network outcomes one `analyzeRepository` run can observe, together
with the clock (`Date.now()`).  Leaf fetches whose internals no claim
depends on are abstracted to their outcome; the three paginated fetches are
given page by page since their loops emit interpolated progress events. -/
structure AnalyzeEnv where
  owner : String
  repo : String
  now : ℤ
  repoResult : Except Unit GitHubRepository
  issuePages : List (PageResult RawIssue)
  closedCount : ClosedCountResult
  commitPages : List (PageResult GitHubCommit)
  releasePages : List (PageResult GitHubRelease)
  responseTime : Except Unit (Option ℚ)
  languagesResult : Except Unit (List (String × ℕ))
  openPRsResult : Except Unit ℕ
  starGrowthResult : Except Unit (ℚ × ℚ)
  prStatsResult : Except Unit ℚ
  codeFreqResult : Except Unit (ℕ × ℕ × ℕ)

/-- The events of the advanced-analytics block: `90` is emitted before the
star-growth fetch, `93` before the PR-stats fetch, `96` before the
code-frequency fetch; a failure aborts the rest of the block (caught), so
later events and assignments are skipped. -/
def analyticsStep (env : AnalyzeEnv) :
    List AnalysisStatus × (ℚ × ℚ) × ℚ × (ℕ × ℕ × ℕ) :=
  let ev90 : AnalysisStatus := ⟨"analytics", "Analyzing star growth...", 90⟩
  let ev93 : AnalysisStatus := ⟨"analytics", "Calculating PR merge rate...", 93⟩
  let ev96 : AnalysisStatus := ⟨"analytics", "Analyzing code frequency...", 96⟩
  match env.starGrowthResult with
  | .error _ => ([ev90], (0, 0), 0, (0, 0, 0))
  | .ok starGrowth =>
    match env.prStatsResult with
    | .error _ => ([ev90, ev93], starGrowth, 0, (0, 0, 0))
    | .ok mergeRate =>
      match env.codeFreqResult with
      | .error _ => ([ev90, ev93, ev96], starGrowth, mergeRate, (0, 0, 0))
      | .ok codeFreq => ([ev90, ev93, ev96], starGrowth, mergeRate, codeFreq)

/-- The `onProgress` lambda the orchestrator passes to `fetchIssues`:
`20 + Math.floor((current / total) * 10)` (natural division is the floor). -/
def issueProgressEvent (ct : ℕ × ℕ) : AnalysisStatus :=
  match ct with
  | (current, total) =>
    { step := "issues", message := s!"Fetching issues ({current})...",
      progress := 20 + current * 10 / total }

/-- The event closing the issues step: progress 30 on success and failure. -/
def issuesCloseEvent (r : Except Unit (List GitHubIssue)) : AnalysisStatus :=
  match r with
  | .ok fetched =>
    let n := fetched.length
    ⟨"issues", s!"✓ Fetched {n} issues", 30⟩
  | .error _ => ⟨"issues", "⚠ Failed to fetch issues", 30⟩

/-- The `onProgress` lambda the orchestrator passes to `fetchCommits`:
`40 + Math.floor((current / total) * 15)`. -/
def commitProgressEvent (ct : ℕ × ℕ) : AnalysisStatus :=
  match ct with
  | (current, total) =>
    { step := "commits", message := s!"Fetching commits ({current})...",
      progress := 40 + current * 15 / total }

/-- The event closing the commits step: progress 55 on success and failure. -/
def commitsCloseEvent (r : Except Unit (List GitHubCommit)) : AnalysisStatus :=
  match r with
  | .ok fetched =>
    let n := fetched.length
    ⟨"commits", s!"✓ Fetched {n} commits", 55⟩
  | .error _ => ⟨"commits", "⚠ Failed to fetch commits", 55⟩

/-- The `onProgress` lambda the orchestrator passes to `fetchReleases`:
`55 + Math.floor((current / total) * 10)`. -/
def releaseProgressEvent (ct : ℕ × ℕ) : AnalysisStatus :=
  match ct with
  | (current, total) =>
    { step := "releases", message := s!"Fetching releases ({current})...",
      progress := 55 + current * 10 / total }

/-- The event closing the releases step: progress 65 on success and failure. -/
def releasesCloseEvent (r : Except Unit (List GitHubRelease)) : AnalysisStatus :=
  match r with
  | .ok fetched =>
    let n := fetched.length
    ⟨"releases", s!"✓ Fetched {n} releases", 65⟩
  | .error _ => ⟨"releases", "⚠ Failed to fetch releases", 65⟩

/-- The events of the response-time step: skipped when no issues were
fetched, otherwise progress 70 at entry and 85 on success and failure. -/
def responseTimeEvents (issuesLength : ℕ) (r : Except Unit (Option ℚ)) :
    List AnalysisStatus :=
  if 0 < issuesLength then
    match r with
    | .ok _ =>
      [⟨"response-time", "Calculating response times...", 70⟩,
       ⟨"response-time", "✓ Response time calculated", 85⟩]
    | .error _ =>
      [⟨"response-time", "Calculating response times...", 70⟩,
       ⟨"response-time", "⚠ Response time calculation failed", 85⟩]
  else []

/-- The body of `analyzeRepository` after the repository-info fetch
succeeded: every later step is wrapped in its own try/catch and substitutes
its default on failure, so this function is total.  Returns the emitted
progress events (in order) and the assembled record. -/
def analyzeRepositoryOk (env : AnalyzeEnv) (repository : GitHubRepository) :
    List AnalysisStatus × RepositoryMetrics :=
  -- issues step
  let issuesFetch := fetchIssuesModel env.issuePages
  let issues := caughtD issuesFetch.2 []
  -- issue-count reconciliation step
  let issueCounts : ℚ × ℚ :=
    match env.closedCount with
    | .okCount n => ((repository.open_issues_count : ℚ), (n : ℚ))
    | .badStatus => ((repository.open_issues_count : ℚ), 0)
    | .netFail =>
      (((issues.filter fun i => i.state = "open").length : ℚ),
       ((issues.filter fun i => i.state = "closed").length : ℚ))
  -- commits step
  let commitsFetch := fetchCommitsModel env.commitPages
  let commits := caughtD commitsFetch.2 []
  -- releases step
  let releasesFetch := fetchReleasesModel env.releasePages
  let releases := caughtD releasesFetch.2 []
  -- response-time step, only entered when some issues were fetched
  let medianIssueResponseTime : Option ℚ :=
    if 0 < issues.length then caughtD env.responseTime none else none
  -- additional data step: languages first, then the open-PR count; a
  -- failure of the second keeps the first's value (caught together)
  let additional : List (String × ℕ) × ℕ :=
    match env.languagesResult with
    | .error _ => ([], 0)
    | .ok langs =>
      match env.openPRsResult with
      | .ok n => (langs, n)
      | .error _ => (langs, 0)
  -- advanced analytics step
  let analytics := analyticsStep env
  let releaseStats := calculateReleaseStats env.now releases
  let metricsData : MetricsData :=
    { owner := env.owner
      name := repository.name
      fullName := repository.full_name
      description := repository.description
      stars := repository.stargazers_count
      forks := repository.forks_count
      openIssues := repository.open_issues_count
      medianIssueResponseTime := medianIssueResponseTime
      openIssuesCount := issueCounts.1
      closedIssuesCount := issueCounts.2
      totalCommitsLast90Days := (commits.length : ℚ)
      topContributorRatio := calculateTopContributorRatio commits
      releases := releaseStats.releases
      totalReleases := releaseStats.totalReleases
      releasesLast90Days := releaseStats.releasesLast90Days
      totalDownloads := releaseStats.totalDownloads
      averageDownloadsPerRelease := releaseStats.averageDownloadsPerRelease
      latestRelease := releaseStats.latestRelease
      watchers := repository.subscribers_count
      lastCommitDate :=
        match commits with
        | c :: _ => c.commit.author.date
        | [] => repository.updated_at
      openPullRequests := additional.2
      license := repository.license
      languages := additional.1
      starsPerMonth := analytics.2.1.1
      recentStarGrowth := analytics.2.1.2
      prMergeRate := analytics.2.2.1
      codeAdditions := analytics.2.2.2.1
      codeDeletions := analytics.2.2.2.2.1
      totalCodeChanges := analytics.2.2.2.2.2 }
  let healthScore := calculateHealthScore metricsData
  let events : List AnalysisStatus :=
    [⟨"init", "Starting analysis...", 0⟩,
     ⟨"repo", "Fetching repository info...", 10⟩,
     ⟨"repo", "✓ Repository info fetched", 15⟩,
     ⟨"issues", "Fetching issues...", 20⟩]
    ++ issuesFetch.1.map issueProgressEvent
    ++ [issuesCloseEvent issuesFetch.2,
        ⟨"issue-counts", "Getting issue statistics...", 32⟩,
        ⟨"commits", "Fetching commits...", 40⟩]
    ++ commitsFetch.1.map commitProgressEvent
    ++ [commitsCloseEvent commitsFetch.2,
        ⟨"releases", "Fetching releases...", 55⟩]
    ++ releasesFetch.1.map releaseProgressEvent
    ++ [releasesCloseEvent releasesFetch.2]
    ++ responseTimeEvents issues.length env.responseTime
    ++ [⟨"additional", "Fetching additional data...", 87⟩]
    ++ analytics.1
    ++ [⟨"calculating", "Calculating health score...", 98⟩,
        ⟨"complete", "✓ Analysis complete!", 100⟩]
  (events, { metricsData with healthScore := healthScore })

/-- `analyzeRepository` of src/lib/metrics.ts: only the repository-info
fetch is fatal (its failure is re-raised after the `init` and `repo` events
were already delivered); everything after it is handled by
`analyzeRepositoryOk`. -/
def analyzeRepository (env : AnalyzeEnv) :
    List AnalysisStatus × Except Unit RepositoryMetrics :=
  match env.repoResult with
  | .error _ =>
    ([⟨"init", "Starting analysis...", 0⟩,
      ⟨"repo", "Fetching repository info...", 10⟩], .error ())
  | .ok repository =>
    let r := analyzeRepositoryOk env repository
    (r.1, .ok r.2)

/-! ## Concrete inputs used by the theorems -/

/-- The release of the spec's end-to-end scenario: published at epoch 0,
analysed 10 days (864000000 ms) later. -/
def scenarioRelease : GitHubRelease :=
  { tag_name := "v1.0.0", name := some "v1.0.0", published_at := 0,
    prerelease := false, draft := false, assets := [] }

/-- The metrics record of the spec's end-to-end scenario: no response-time
sample, 5 open and 45 closed issues, 30 commits, a 60% top contributor,
latest release 10 days old. -/
def scenarioMetrics : MetricsData :=
  { owner := "octo", name := "repo", fullName := "octo/repo",
    description := none, stars := 120, forks := 0, openIssues := 5,
    medianIssueResponseTime := none, openIssuesCount := 5,
    closedIssuesCount := 45, totalCommitsLast90Days := 30,
    topContributorRatio := 60,
    releases := (calculateReleaseStats 864000000 [scenarioRelease]).releases,
    totalReleases := 1, releasesLast90Days := 1, totalDownloads := 0,
    averageDownloadsPerRelease := 0,
    latestRelease := (calculateReleaseStats 864000000 [scenarioRelease]).latestRelease,
    watchers := 0, lastCommitDate := 0, openPullRequests := 0, license := none,
    languages := [], starsPerMonth := 0, recentStarGrowth := 0, prMergeRate := 0,
    codeAdditions := 0, codeDeletions := 0, totalCodeChanges := 0 }

/-- Two releases, a prerelease with 10 downloads and a non-prerelease with
5: the average-downloads rollup divides the downloads of BOTH by the one
non-prerelease. -/
def mixedReleases : List GitHubRelease :=
  [{ tag_name := "v2.0.0-rc.1", name := some "rc", published_at := 0,
     prerelease := true, draft := false, assets := [⟨"a.zip", 1, 10⟩] },
   { tag_name := "v1.0.0", name := some "stable", published_at := 0,
     prerelease := false, draft := false, assets := [⟨"b.zip", 1, 5⟩] }]

/-- A closed issue payload. -/
def exIssue : GitHubIssue := ⟨1, "closed", 0, 0⟩

/-- A full issues page of 100 items, 10 of them pull requests. -/
def pageMixed : PageResult RawIssue :=
  .ok (List.replicate 90 ⟨exIssue, false⟩ ++ List.replicate 10 ⟨exIssue, true⟩)

/-- A full issues page of 100 items, none of them pull requests. -/
def pageFull : PageResult RawIssue := .ok (List.replicate 100 ⟨exIssue, false⟩)

/-- Six full pages whose PR filtering lets the issues loop accumulate 550
items: the interpolated progress event then reads 31, above the closing
checkpoint 30. -/
def overshootIssuePages : List (PageResult RawIssue) :=
  List.replicate 5 pageMixed ++ [pageFull]

/-- A repository-info payload. -/
def exRepository : GitHubRepository :=
  { name := "r", full_name := "o/r", description := none,
    stargazers_count := 120, forks_count := 0, open_issues_count := 5,
    subscribers_count := 0, updated_at := 0, license := none }

/-- An environment whose every fetch succeeds, with the overshooting issue
pages. -/
def overshootEnv : AnalyzeEnv :=
  { owner := "o", repo := "r", now := 0, repoResult := .ok exRepository,
    issuePages := overshootIssuePages, closedCount := .okCount 0,
    commitPages := [], releasePages := [], responseTime := .ok none,
    languagesResult := .ok [], openPRsResult := .ok 0,
    starGrowthResult := .ok (0, 0), prStatsResult := .ok 0,
    codeFreqResult := .ok (0, 0, 0) }

/-- An environment where the repository fetch succeeds but the commits
fetch fails at its first page (network failure after retries). -/
def commitsFailEnv : AnalyzeEnv :=
  { owner := "o", repo := "r", now := 0, repoResult := .ok exRepository,
    issuePages := [], closedCount := .okCount 0,
    commitPages := [.netFail], releasePages := [], responseTime := .ok none,
    languagesResult := .ok [], openPRsResult := .ok 0,
    starGrowthResult := .ok (0, 0), prStatsResult := .ok 0,
    codeFreqResult := .ok (0, 0, 0) }

/-- A small well-behaved environment: one short issues page, no commits or
releases. -/
def smallEnv : AnalyzeEnv :=
  { owner := "o", repo := "r", now := 0, repoResult := .ok exRepository,
    issuePages := [.ok (List.replicate 50 ⟨exIssue, false⟩)],
    closedCount := .okCount 0, commitPages := [], releasePages := [],
    responseTime := .ok none, languagesResult := .ok [],
    openPRsResult := .ok 0, starGrowthResult := .ok (0, 0),
    prStatsResult := .ok 0, codeFreqResult := .ok (0, 0, 0) }

/-- A bounded monotone segment of a progress sequence: non-decreasing with
every element in [lo, hi]. -/
def BddSeg (lo hi : ℕ) (l : List ℕ) : Prop :=
  List.Pairwise (· ≤ ·) l ∧ ∀ x ∈ l, lo ≤ x ∧ x ≤ hi

/-! ## Supporting lemmas -/

/-- Folding `fun s x => s + f x` is summing the image. -/
lemma foldl_add_eq_sum {α : Type} (f : α → ℕ) (l : List α) (n : ℕ) :
    l.foldl (fun s x => s + f x) n = n + (l.map f).sum := by
  induction l generalizing n with
  | nil => simp
  | cons a t ih => simp [ih, Nat.add_assoc]

/-- The per-release download total is the sum of its assets' counts. -/
lemma releaseToStats_totalDownloads (now : ℤ) (r : GitHubRelease) :
    (releaseToStats now r).totalDownloads =
      (r.assets.map GitHubReleaseAsset.download_count).sum := by
  simpa [releaseToStats] using foldl_add_eq_sum GitHubReleaseAsset.download_count r.assets 0

/-- The mapped stats keep the prerelease flag. -/
lemma releaseToStats_isPrerelease (now : ℤ) (r : GitHubRelease) :
    (releaseToStats now r).isPrerelease = r.prerelease := rfl

/-- `totalDownloads` of the rollup sums every release, prereleases
included. -/
lemma calculateReleaseStats_totalDownloads (now : ℤ) (rs : List GitHubRelease) :
    (calculateReleaseStats now rs).totalDownloads =
      (rs.map fun r => (r.assets.map GitHubReleaseAsset.download_count).sum).sum := by
  simp only [calculateReleaseStats]
  rw [foldl_add_eq_sum ReleaseStats.totalDownloads]
  simp only [Nat.zero_add, List.map_map]
  congr 1
  exact List.map_congr_left fun r _ => releaseToStats_totalDownloads now r

/-- The rollup's non-prerelease sublist is the mapped image of the input's
non-prerelease sublist. -/
lemma calculateReleaseStats_nonPre (now : ℤ) (rs : List GitHubRelease) :
    (rs.map (releaseToStats now)).filter (fun r => !r.isPrerelease) =
      (rs.filter fun r => !r.prerelease).map (releaseToStats now) := by
  induction rs with
  | nil => rfl
  | cons r t ih =>
    by_cases h : r.prerelease <;>
      simp [List.filter_cons, releaseToStats_isPrerelease, h, ih]

/-- Appending two bounded monotone segments whose bounds meet in order
gives a bounded monotone segment. -/
lemma BddSeg.append {lo₁ hi₁ lo₂ hi₂ lo hi : ℕ} {l₁ l₂ : List ℕ}
    (h₁ : BddSeg lo₁ hi₁ l₁) (h₂ : BddSeg lo₂ hi₂ l₂)
    (hmid : hi₁ ≤ lo₂) (hlo₁ : lo ≤ lo₁) (hlo₂ : lo ≤ lo₂)
    (hhi₁ : hi₁ ≤ hi) (hhi₂ : hi₂ ≤ hi) :
    BddSeg lo hi (l₁ ++ l₂) := by
  refine ⟨List.pairwise_append.mpr ⟨h₁.1, h₂.1, ?_⟩, ?_⟩
  · intro a ha b hb
    exact le_trans (le_trans (h₁.2 a ha).2 hmid) (h₂.2 b hb).1
  · intro x hx
    rcases List.mem_append.mp hx with h | h
    · exact ⟨le_trans hlo₁ (h₁.2 x h).1, le_trans (h₁.2 x h).2 hhi₁⟩
    · exact ⟨le_trans hlo₂ (h₂.2 x h).1, le_trans (h₂.2 x h).2 hhi₂⟩

/-- The issues loop reports non-decreasing cumulative counts, all at least
the count already accumulated, with constant total 500. -/
lemma fetchIssuesLoop_events_facts (perPage : ℕ) :
    ∀ (pages : List (PageResult RawIssue)) (acc : List GitHubIssue),
      List.Pairwise (fun a b : ℕ × ℕ => a.1 ≤ b.1) (fetchIssuesLoop perPage pages acc).1 ∧
      ∀ p ∈ (fetchIssuesLoop perPage pages acc).1, acc.length ≤ p.1 ∧ p.2 = 500 := by
  intro pages
  induction pages with
  | nil =>
    intro acc
    constructor <;> · unfold fetchIssuesLoop; split <;> simp
  | cons page rest ih =>
    intro acc
    unfold fetchIssuesLoop
    split
    · simp
    · cases page with
      | netFail => simp
      | httpError status =>
        simp only []
        split <;> simp
      | ok data =>
        simp only []
        split
        · simp
        · split
          · refine ⟨List.pairwise_singleton _ _, ?_⟩
            intro p hp
            simp only [List.mem_singleton] at hp
            subst hp
            simp
          · obtain ⟨ihp, ihb⟩ :=
              ih (acc ++ (data.filter fun item => !item.isPullRequest).map fun item => item.issue)
            refine ⟨List.pairwise_cons.mpr ⟨?_, ihp⟩, ?_⟩
            · intro b hb
              simpa using le_trans (by simp) (ihb b hb).1
            · intro p hp
              rcases List.mem_cons.mp hp with h | h
              · subst h
                simp
              · exact ⟨le_trans (by simp) (ihb p h).1, (ihb p h).2⟩

/-- The commits loop reports non-decreasing cumulative counts with
constant total 1000. -/
lemma fetchCommitsLoop_events_facts :
    ∀ (pages : List (PageResult GitHubCommit)) (acc : List GitHubCommit),
      List.Pairwise (fun a b : ℕ × ℕ => a.1 ≤ b.1) (fetchCommitsLoop pages acc).1 ∧
      ∀ p ∈ (fetchCommitsLoop pages acc).1, acc.length ≤ p.1 ∧ p.2 = 1000 := by
  intro pages
  induction pages with
  | nil =>
    intro acc
    constructor <;> · unfold fetchCommitsLoop; split <;> simp
  | cons page rest ih =>
    intro acc
    unfold fetchCommitsLoop
    split
    · simp
    · cases page with
      | netFail => simp
      | httpError status =>
        simp only []
        split <;> simp
      | ok data =>
        simp only []
        split
        · simp
        · split
          · refine ⟨List.pairwise_singleton _ _, ?_⟩
            intro p hp
            simp only [List.mem_singleton] at hp
            subst hp
            simp
          · obtain ⟨ihp, ihb⟩ := ih (acc ++ data)
            refine ⟨List.pairwise_cons.mpr ⟨?_, ihp⟩, ?_⟩
            · intro b hb
              simpa using le_trans (by simp) (ihb b hb).1
            · intro p hp
              rcases List.mem_cons.mp hp with h | h
              · subst h
                simp
              · exact ⟨le_trans (by simp) (ihb p h).1, (ihb p h).2⟩

/-- The releases loop reports non-decreasing cumulative counts with
constant total `limit`. -/
lemma fetchReleasesLoop_events_facts (limit : ℕ) :
    ∀ (pages : List (PageResult GitHubRelease)) (acc : List GitHubRelease),
      List.Pairwise (fun a b : ℕ × ℕ => a.1 ≤ b.1) (fetchReleasesLoop limit pages acc).1 ∧
      ∀ p ∈ (fetchReleasesLoop limit pages acc).1, acc.length ≤ p.1 ∧ p.2 = limit := by
  intro pages
  induction pages with
  | nil =>
    intro acc
    constructor <;> · unfold fetchReleasesLoop; split <;> simp
  | cons page rest ih =>
    intro acc
    unfold fetchReleasesLoop
    split
    · simp
    · cases page with
      | netFail => simp
      | httpError status =>
        simp only []
        split <;> simp
      | ok data =>
        simp only []
        split
        · simp
        · split
          · refine ⟨List.pairwise_singleton _ _, ?_⟩
            intro p hp
            simp only [List.mem_singleton] at hp
            subst hp
            simp
          · obtain ⟨ihp, ihb⟩ := ih (acc ++ data.filter fun release => !release.draft)
            refine ⟨List.pairwise_cons.mpr ⟨?_, ihp⟩, ?_⟩
            · intro b hb
              simpa using le_trans (by simp) (ihb b hb).1
            · intro p hp
              rcases List.mem_cons.mp hp with h | h
              · subst h
                simp
              · exact ⟨le_trans (by simp) (ihb p h).1, (ihb p h).2⟩

/-- The issues closing event reads 30 whether the fetch succeeded or not. -/
lemma issuesCloseEvent_progress (r : Except Unit (List GitHubIssue)) :
    (issuesCloseEvent r).progress = 30 := by cases r <;> rfl

/-- The commits closing event reads 55 whether the fetch succeeded or not. -/
lemma commitsCloseEvent_progress (r : Except Unit (List GitHubCommit)) :
    (commitsCloseEvent r).progress = 55 := by cases r <;> rfl

/-- The releases closing event reads 65 whether the fetch succeeded or not. -/
lemma releasesCloseEvent_progress (r : Except Unit (List GitHubRelease)) :
    (releasesCloseEvent r).progress = 65 := by cases r <;> rfl

/-- When no interpolated count exceeds the 500-item limit, the issues
loop's progress events form a monotone segment within [20, 30]. -/
lemma issues_progress_seg (pages : List (PageResult RawIssue))
    (hb : ∀ p ∈ (fetchIssuesModel pages).1, p.1 ≤ 500) :
    BddSeg 20 30
      (((fetchIssuesModel pages).1.map issueProgressEvent).map AnalysisStatus.progress) := by
  obtain ⟨hp, hbd⟩ := fetchIssuesLoop_events_facts 100 pages []
  rw [List.map_map]
  constructor
  · rw [List.pairwise_map]
    refine hp.imp_of_mem ?_
    intro a b ha hb' hle
    have ha2 := (hbd a ha).2
    have hb2 := (hbd b hb').2
    rcases a with ⟨ca, ta⟩
    rcases b with ⟨cb, tb⟩
    simp only at ha2 hb2
    subst ha2
    subst hb2
    simp only [Function.comp, issueProgressEvent]
    exact Nat.add_le_add_left (Nat.div_le_div_right (Nat.mul_le_mul_right _ hle)) 20
  · intro x hx
    rw [List.mem_map] at hx
    obtain ⟨p, hpmem, rfl⟩ := hx
    have h2 := (hbd p hpmem).2
    have h1 := hb p hpmem
    rcases p with ⟨c, t⟩
    simp only at h1 h2
    subst h2
    simp only [Function.comp, issueProgressEvent]
    refine ⟨Nat.le_add_right 20 _, ?_⟩
    have hdiv : c * 10 / 500 ≤ 10 := by
      calc c * 10 / 500 ≤ 500 * 10 / 500 :=
            Nat.div_le_div_right (Nat.mul_le_mul_right _ h1)
        _ = 10 := by norm_num
    omega

/-- When no interpolated count exceeds the 1000-item limit, the commits
loop's progress events form a monotone segment within [40, 55]. -/
lemma commits_progress_seg (pages : List (PageResult GitHubCommit))
    (hb : ∀ p ∈ (fetchCommitsModel pages).1, p.1 ≤ 1000) :
    BddSeg 40 55
      (((fetchCommitsModel pages).1.map commitProgressEvent).map AnalysisStatus.progress) := by
  obtain ⟨hp, hbd⟩ := fetchCommitsLoop_events_facts pages []
  rw [List.map_map]
  constructor
  · rw [List.pairwise_map]
    refine hp.imp_of_mem ?_
    intro a b ha hb' hle
    have ha2 := (hbd a ha).2
    have hb2 := (hbd b hb').2
    rcases a with ⟨ca, ta⟩
    rcases b with ⟨cb, tb⟩
    simp only at ha2 hb2
    subst ha2
    subst hb2
    simp only [Function.comp, commitProgressEvent]
    exact Nat.add_le_add_left (Nat.div_le_div_right (Nat.mul_le_mul_right _ hle)) 40
  · intro x hx
    rw [List.mem_map] at hx
    obtain ⟨p, hpmem, rfl⟩ := hx
    have h2 := (hbd p hpmem).2
    have h1 := hb p hpmem
    rcases p with ⟨c, t⟩
    simp only at h1 h2
    subst h2
    simp only [Function.comp, commitProgressEvent]
    refine ⟨Nat.le_add_right 40 _, ?_⟩
    have hdiv : c * 15 / 1000 ≤ 15 := by
      calc c * 15 / 1000 ≤ 1000 * 15 / 1000 :=
            Nat.div_le_div_right (Nat.mul_le_mul_right _ h1)
        _ = 15 := by norm_num
    omega

/-- When no interpolated count exceeds the 1000-item limit, the releases
loop's progress events form a monotone segment within [55, 65]. -/
lemma releases_progress_seg (pages : List (PageResult GitHubRelease))
    (hb : ∀ p ∈ (fetchReleasesModel pages).1, p.1 ≤ 1000) :
    BddSeg 55 65
      (((fetchReleasesModel pages).1.map releaseProgressEvent).map AnalysisStatus.progress) := by
  obtain ⟨hp, hbd⟩ := fetchReleasesLoop_events_facts 1000 pages []
  rw [List.map_map]
  constructor
  · rw [List.pairwise_map]
    refine hp.imp_of_mem ?_
    intro a b ha hb' hle
    have ha2 := (hbd a ha).2
    have hb2 := (hbd b hb').2
    rcases a with ⟨ca, ta⟩
    rcases b with ⟨cb, tb⟩
    simp only at ha2 hb2
    subst ha2
    subst hb2
    simp only [Function.comp, releaseProgressEvent]
    exact Nat.add_le_add_left (Nat.div_le_div_right (Nat.mul_le_mul_right _ hle)) 55
  · intro x hx
    rw [List.mem_map] at hx
    obtain ⟨p, hpmem, rfl⟩ := hx
    have h2 := (hbd p hpmem).2
    have h1 := hb p hpmem
    rcases p with ⟨c, t⟩
    simp only at h1 h2
    subst h2
    simp only [Function.comp, releaseProgressEvent]
    refine ⟨Nat.le_add_right 55 _, ?_⟩
    have hdiv : c * 10 / 1000 ≤ 10 := by
      calc c * 10 / 1000 ≤ 1000 * 10 / 1000 :=
            Nat.div_le_div_right (Nat.mul_le_mul_right _ h1)
        _ = 10 := by norm_num
    omega

/-- The response-time step's events form a monotone segment within
[70, 85] (vacuously when skipped). -/
lemma response_progress_seg (n : ℕ) (r : Except Unit (Option ℚ)) :
    BddSeg 70 85 ((responseTimeEvents n r).map AnalysisStatus.progress) := by
  unfold responseTimeEvents
  split
  · cases r <;>
      refine ⟨?_, ?_⟩ <;> simp [List.pairwise_cons]
  · exact ⟨by simp, by simp⟩

/-- The analytics step's events form a monotone segment within [90, 96]. -/
lemma analytics_progress_seg (env : AnalyzeEnv) :
    BddSeg 90 96 ((analyticsStep env).1.map AnalysisStatus.progress) := by
  unfold analyticsStep
  rcases env.starGrowthResult with e | sg
  · refine ⟨?_, ?_⟩ <;> simp [List.pairwise_cons]
  · rcases env.prStatsResult with e | mr
    · refine ⟨?_, ?_⟩ <;> simp [List.pairwise_cons]
    · rcases env.codeFreqResult with e | cf <;>
        · refine ⟨?_, ?_⟩ <;> simp [List.pairwise_cons]

/-! ## Claim theorems -/

/-- C1: for every metrics input — any `medianIssueResponseTime` including
null, arbitrary counts and ratios — `calculateHealthScore` returns an
integer (its codomain is `ℤ` because every branch contributes an integer)
in [0, 100], and that result is the sum of the five sub-scores clamped to
[0, 100]. -/
theorem calculateHealthScore_in_range (m : MetricsData) :
    0 ≤ calculateHealthScore m ∧ calculateHealthScore m ≤ 100 ∧
    calculateHealthScore m =
      min 100 (max 0
        (responseTimeScore m.medianIssueResponseTime
          + issueResolutionScore m.openIssuesCount m.closedIssuesCount
          + commitActivityScore m.totalCommitsLast90Days
          + busFactorScore m.topContributorRatio
          + releaseActivityScore m.latestRelease)) :=
  ⟨le_min (by norm_num) (le_max_left 0 _), min_le_left _ _, rfl⟩

/-- C2: on the end-to-end scenario (no response-time sample, 5 open and 45
closed issues, 30 commits, 60% top contributor, latest non-prerelease
release 10 days old) the five sub-scores are 10, 18, 12, 8 and 20, and
`calculateHealthScore` returns 68. -/
theorem calculateHealthScore_scenario_68 :
    responseTimeScore none = 10 ∧
    issueResolutionScore 5 45 = 18 ∧
    commitActivityScore 30 = 12 ∧
    busFactorScore 60 = 8 ∧
    (calculateReleaseStats 864000000 [scenarioRelease]).latestRelease =
      some (releaseToStats 864000000 scenarioRelease) ∧
    (releaseToStats 864000000 scenarioRelease).daysAgo = 10 ∧
    releaseActivityScore scenarioMetrics.latestRelease = 20 ∧
    calculateHealthScore scenarioMetrics = 68 := by
  have hdays : (releaseToStats 864000000 scenarioRelease).daysAgo = 10 := by
    simp only [releaseToStats, scenarioRelease]
    norm_num
  have hlatest : (calculateReleaseStats 864000000 [scenarioRelease]).latestRelease =
      some (releaseToStats 864000000 scenarioRelease) := by
    simp [calculateReleaseStats, releaseToStats, scenarioRelease]
  have hrel : releaseActivityScore
      (calculateReleaseStats 864000000 [scenarioRelease]).latestRelease = 20 := by
    rw [hlatest]
    simp only [releaseActivityScore, hdays]
    norm_num
  have hissue : issueResolutionScore 5 45 = 18 := by
    simp only [issueResolutionScore, jsRound]
    norm_num
  have hresp : responseTimeScore none = 10 := rfl
  have hcommit : commitActivityScore 30 = 12 := by
    simp only [commitActivityScore]
    norm_num
  have hbus : busFactorScore 60 = 8 := by
    simp only [busFactorScore]
    norm_num
  refine ⟨hresp, hissue, hcommit, hbus, hlatest, hdays, hrel, ?_⟩
  show min 100 (max 0
    (responseTimeScore none + issueResolutionScore 5 45 + commitActivityScore 30
      + busFactorScore 60
      + releaseActivityScore
          (calculateReleaseStats 864000000 [scenarioRelease]).latestRelease)) = 68
  rw [hresp, hissue, hcommit, hbus, hrel]
  decide

/-- C3 counterexample: with a prerelease carrying 10 downloads and a single
non-prerelease carrying 5, the code's `averageDownloadsPerRelease` is
round(15 / 1) = 15, not the claimed round(5 / 1) = 5 over non-prerelease
entries only. -/
theorem averageDownloads_includes_prerelease_downloads :
    (calculateReleaseStats 0 mixedReleases).averageDownloadsPerRelease = 15 ∧
    jsRound
      ((((mixedReleases.filter fun r => !r.prerelease).map
          fun r => ((r.assets.map GitHubReleaseAsset.download_count).sum : ℚ)).sum) /
        (((mixedReleases.filter fun r => !r.prerelease).length : ℚ))) = 5 ∧
    (15 : ℤ) ≠ 5 := by
  refine ⟨?_, ?_, by decide⟩
  · simp only [calculateReleaseStats, releaseToStats, mixedReleases, jsRound, List.filter,
      List.map, List.foldl]
    norm_num
  · simp only [mixedReleases, jsRound, List.filter, List.map, List.sum_cons, List.sum_nil,
      List.length]
    norm_num

/-- C3 amended: `averageDownloadsPerRelease` is the download total over ALL
releases (prereleases included) divided by the number of non-prerelease
releases, rounded to nearest, and 0 when there is no non-prerelease
release. -/
theorem averageDownloads_formula (now : ℤ) (rs : List GitHubRelease) :
    (calculateReleaseStats now rs).averageDownloadsPerRelease =
      if 0 < (rs.filter fun r => !r.prerelease).length then
        jsRound
          (((((rs.map fun r =>
                (r.assets.map GitHubReleaseAsset.download_count).sum).sum : ℕ)) : ℚ) /
            (((rs.filter fun r => !r.prerelease).length : ℚ)))
      else 0 := by
  have htot := calculateReleaseStats_totalDownloads now rs
  simp only [calculateReleaseStats] at htot ⊢
  rw [calculateReleaseStats_nonPre, List.length_map, htot]

/-- C4: `totalDownloads` sums the asset downloads of every release,
prereleases included, while `totalReleases` counts only the releases whose
prerelease flag is false. -/
theorem totalDownloads_all_totalReleases_nonPre (now : ℤ) (rs : List GitHubRelease) :
    (calculateReleaseStats now rs).totalDownloads =
      (rs.map fun r => (r.assets.map GitHubReleaseAsset.download_count).sum).sum ∧
    (calculateReleaseStats now rs).totalReleases =
      (rs.filter fun r => !r.prerelease).length := by
  refine ⟨calculateReleaseStats_totalDownloads now rs, ?_⟩
  simp only [calculateReleaseStats]
  rw [calculateReleaseStats_nonPre, List.length_map]

/-- C8: `calculateMedian` returns null on the empty list, and on any
non-empty list returns the middle element of the ascending reordering for
odd length, the average of the two middle elements for even length; in
particular median [1,2,3] = 2, median [1,2,3,4] = 5/2. -/
theorem calculateMedian_sorted_middle :
    calculateMedian [] = none ∧
    calculateMedian [1, 2, 3] = some 2 ∧
    calculateMedian [1, 2, 3, 4] = some (5 / 2) ∧
    ∀ (l s : List ℚ), l ≠ [] → s.Perm l → s.Sorted (· ≤ ·) →
      calculateMedian l =
        some (if s.length % 2 = 0 then
                (s.getD (s.length / 2 - 1) 0 + s.getD (s.length / 2) 0) / 2
              else s.getD (s.length / 2) 0) := by
  refine ⟨rfl, ?_, ?_, ?_⟩
  · norm_num [calculateMedian, List.insertionSort, List.orderedInsert]
  · norm_num [calculateMedian, List.insertionSort, List.orderedInsert]
  intro l s hl hperm hsort
  have hs : s = l.insertionSort (· ≤ ·) :=
    List.eq_of_perm_of_sorted (hperm.trans (List.perm_insertionSort _ l).symm)
      hsort (List.sorted_insertionSort _ l)
  subst hs
  have hlen : ¬ l.length = 0 := by simpa [List.length_eq_zero] using hl
  simp only [calculateMedian, hlen, if_false, apply_ite some]

/-- C8 witness: the characterization applied to the unsorted list [3,1,2]
with its ascending reordering [1,2,3]. -/
theorem calculateMedian_sorted_middle_witness : calculateMedian [3, 1, 2] = some 2 := by
  have h := calculateMedian_sorted_middle.2.2.2 [3, 1, 2] [1, 2, 3]
    (by decide) (by decide) (by decide)
  simpa using h

/-- C9: a median response time of exactly 24 hours falls to the strict
`< 48` bucket worth 16 points, not the `< 24` bucket worth 20. -/
theorem responseTimeScore_at_24h :
    responseTimeScore (some 24) = 16 ∧ responseTimeScore (some 24) ≠ 20 := by
  have h : responseTimeScore (some 24) = 16 := by
    simp only [responseTimeScore]
    norm_num
  exact ⟨h, by rw [h]; decide⟩

/-- C10: `getHealthScoreInterpretation` is total over all numeric scores:
any score ≥ 80 (even above 100) is labelled Excellent, [60, 80) Good,
[40, 60) Fair, and any score < 40 (even negative) Needs Attention. -/
theorem getHealthScoreInterpretation_bands (score : ℚ) :
    (80 ≤ score → (getHealthScoreInterpretation score).label = "Excellent") ∧
    (60 ≤ score → score < 80 → (getHealthScoreInterpretation score).label = "Good") ∧
    (40 ≤ score → score < 60 → (getHealthScoreInterpretation score).label = "Fair") ∧
    (score < 40 → (getHealthScoreInterpretation score).label = "Needs Attention") := by
  unfold getHealthScoreInterpretation
  split_ifs with h1 h2 h3 <;>
    refine ⟨?_, ?_, ?_, ?_⟩ <;> intros <;> first | rfl | linarith

/-- C10 witness: the bands evaluated at 150, 70, 50 and -5 — the first and
last lie outside the declared 0-100 domain. -/
theorem getHealthScoreInterpretation_bands_witness :
    (getHealthScoreInterpretation 150).label = "Excellent" ∧
    (getHealthScoreInterpretation 70).label = "Good" ∧
    (getHealthScoreInterpretation 50).label = "Fair" ∧
    (getHealthScoreInterpretation (-5)).label = "Needs Attention" :=
  ⟨(getHealthScoreInterpretation_bands 150).1 (by norm_num),
   (getHealthScoreInterpretation_bands 70).2.1 (by norm_num) (by norm_num),
   (getHealthScoreInterpretation_bands 50).2.2.1 (by norm_num) (by norm_num),
   (getHealthScoreInterpretation_bands (-5)).2.2.2 (by norm_num)⟩

/-- When every attempt responds 503, the retry loop runs through all its
indices: `remaining + 1` attempts from index `i`, with the backoff of each
index but the last between them, ending by returning the 503 response. -/
lemma fetchWithRetryAux_all503 (f : ℕ → AttemptResult) (h : ∀ i, f i = .resp 503) :
    ∀ (remaining i : ℕ),
      fetchWithRetryAux f i remaining =
        { attempts := remaining + 1,
          delays := (List.range remaining).map fun j => backoffDelay (i + j),
          result := .ok 503 } := by
  intro remaining
  induction remaining with
  | zero => intro i; simp [fetchWithRetryAux, h i]
  | succ r ih =>
    intro i
    have hr : retryableStatus 503 = true := by decide
    simp only [fetchWithRetryAux, h i, hr, if_true, ih (i + 1)]
    rw [List.range_succ_eq_map, List.map_cons, List.map_map]
    have harg : ((fun j => backoffDelay (i + j)) ∘ Nat.succ) =
        fun j => backoffDelay (i + 1 + j) := by
      funext j
      simp only [Function.comp]
      congr 1
      omega
    rw [harg]
    simp

/-- C7: when every attempt of a call returns HTTP 503, `fetchWithRetry`
with retry budget `retries` performs exactly `retries + 1` attempts,
waiting `min(1000 * 2 ^ attempt, 8000)` ms between consecutive attempts,
and the call ends in failure: the response handed back carries status 503,
which is not ok, so every caller treats it as a failed request. -/
theorem fetchWithRetry_always503 (f : ℕ → AttemptResult) (retries : ℕ)
    (h : ∀ i, f i = .resp 503) :
    (fetchWithRetry f retries).attempts = retries + 1 ∧
    (fetchWithRetry f retries).delays =
      (List.range retries).map (fun i => min (1000 * 2 ^ i) 8000) ∧
    (fetchWithRetry f retries).result = .ok 503 ∧
    responseOk 503 = false := by
  have haux := fetchWithRetryAux_all503 f h retries 0
  unfold fetchWithRetry
  rw [haux]
  refine ⟨rfl, ?_, rfl, rfl⟩
  simp [backoffDelay]

/-- C7 witness: the default budget of 3 retries against a permanent 503
makes 4 attempts with waits of 1000, 2000 and 4000 ms. -/
theorem fetchWithRetry_always503_witness :
    (fetchWithRetry (fun _ => .resp 503) 3).attempts = 4 ∧
    (fetchWithRetry (fun _ => .resp 503) 3).delays = [1000, 2000, 4000] ∧
    (fetchWithRetry (fun _ => .resp 503) 3).result = .ok 503 := by
  have h := fetchWithRetry_always503 (fun _ => .resp 503) 3 (fun _ => rfl)
  exact ⟨h.1, by rw [h.2.1]; rfl, h.2.2.1⟩

/-- C5: `analyzeRepository` raises exactly when the initial
repository-info fetch fails; under any other combination of step outcomes
it returns a (fully populated, by type) metrics record, and when the
commits fetch failed that record carries `totalCommitsLast90Days = 0` and
`topContributorRatio = 0`. -/
theorem analyzeRepository_failure_policy (env : AnalyzeEnv) :
    ((analyzeRepository env).2 = .error () ↔ env.repoResult = .error ()) ∧
    (∀ r, env.repoResult = .ok r →
      (fetchCommitsModel env.commitPages).2 = .error () →
      ∃ m, (analyzeRepository env).2 = .ok m ∧
        m.totalCommitsLast90Days = 0 ∧ m.topContributorRatio = 0) := by
  constructor
  · cases henv : env.repoResult with
    | error e => simp [analyzeRepository, henv]
    | ok r => simp [analyzeRepository, henv]
  · intro r hr hcf
    refine ⟨(analyzeRepositoryOk env r).2, ?_, ?_, ?_⟩
    · simp [analyzeRepository, hr]
    · simp [analyzeRepositoryOk, hcf, caughtD]
    · simp [analyzeRepositoryOk, hcf, caughtD, calculateTopContributorRatio]

/-- C5 witness: the environment whose only failure is the commits fetch
(network failure on the first page) still yields a record, with zero
commits and zero top-contributor ratio. -/
theorem analyzeRepository_failure_policy_witness :
    ∃ m, (analyzeRepository commitsFailEnv).2 = .ok m ∧
      m.totalCommitsLast90Days = 0 ∧ m.topContributorRatio = 0 :=
  (analyzeRepository_failure_policy commitsFailEnv).2 exRepository rfl rfl

set_option maxRecDepth 4000 in
/-- C6 counterexample: in a run whose every fetch succeeds, six full issue
pages with some pull requests filtered out accumulate 550 issues, so the
interpolated issues-progress event reads 20 + floor(550/500*10) = 31 and
the next event — the step's closing checkpoint — reads 30: the delivered
progress sequence is not monotonically non-decreasing. -/
theorem analyzeRepository_progress_not_monotone :
    ¬ List.Chain' (· ≤ ·)
        (((analyzeRepository overshootEnv).1).map AnalysisStatus.progress) := by
  have h : ((analyzeRepository overshootEnv).1).map AnalysisStatus.progress =
      [0, 10, 15, 20, 21, 23, 25, 27, 29, 31, 30, 32, 40, 55, 55, 65, 70, 85, 87,
       90, 93, 96, 98, 100] := by decide
  rw [h]
  intro hc
  simp [List.chain'_cons, List.chain'_nil] at hc

/-- C6 amended: provided the repository fetch succeeds (so the run
completes) and the cumulative item counts reported inside the issues,
commits and releases fetch loops never exceed their fetch limits (500,
1000 and 1000 — filtering offsets can otherwise push a full page past the
limit), the progress sequence delivered to the callback is monotonically
non-decreasing, starts at 0 and ends at 100. -/
theorem analyzeRepository_progress_monotone (env : AnalyzeEnv) (r : GitHubRepository)
    (hrepo : env.repoResult = .ok r)
    (hI : ∀ p ∈ (fetchIssuesModel env.issuePages).1, p.1 ≤ 500)
    (hC : ∀ p ∈ (fetchCommitsModel env.commitPages).1, p.1 ≤ 1000)
    (hR : ∀ p ∈ (fetchReleasesModel env.releasePages).1, p.1 ≤ 1000) :
    List.Chain' (· ≤ ·) ((analyzeRepository env).1.map AnalysisStatus.progress) ∧
    ((analyzeRepository env).1.map AnalysisStatus.progress).head? = some 0 ∧
    ((analyzeRepository env).1.map AnalysisStatus.progress).getLast? = some 100 := by
  have hev : (analyzeRepository env).1 = (analyzeRepositoryOk env r).1 := by
    simp [analyzeRepository, hrepo]
  rw [hev]
  have hmap : (analyzeRepositoryOk env r).1.map AnalysisStatus.progress =
      [0, 10, 15, 20] ++
        ((((fetchIssuesModel env.issuePages).1.map issueProgressEvent).map
            AnalysisStatus.progress) ++
          ([30, 32, 40] ++
            ((((fetchCommitsModel env.commitPages).1.map commitProgressEvent).map
                AnalysisStatus.progress) ++
              ([55, 55] ++
                ((((fetchReleasesModel env.releasePages).1.map releaseProgressEvent).map
                    AnalysisStatus.progress) ++
                  ([65] ++
                    (((responseTimeEvents
                          (caughtD (fetchIssuesModel env.issuePages).2 []).length
                          env.responseTime).map AnalysisStatus.progress) ++
                      ([87] ++
                        (((analyticsStep env).1.map AnalysisStatus.progress) ++
                          [98, 100]))))))))) := by
    simp [analyzeRepositoryOk, issuesCloseEvent_progress, commitsCloseEvent_progress,
      releasesCloseEvent_progress]
  rw [hmap]
  have hIseg := issues_progress_seg env.issuePages hI
  have hCseg := commits_progress_seg env.commitPages hC
  have hRseg := releases_progress_seg env.releasePages hR
  have hSseg := response_progress_seg
    (caughtD (fetchIssuesModel env.issuePages).2 []).length env.responseTime
  have hAseg := analytics_progress_seg env
  set iP := ((fetchIssuesModel env.issuePages).1.map issueProgressEvent).map
    AnalysisStatus.progress with hiP
  set cP := ((fetchCommitsModel env.commitPages).1.map commitProgressEvent).map
    AnalysisStatus.progress with hcP
  set rP := ((fetchReleasesModel env.releasePages).1.map releaseProgressEvent).map
    AnalysisStatus.progress with hrP
  set sP := (responseTimeEvents (caughtD (fetchIssuesModel env.issuePages).2 []).length
    env.responseTime).map AnalysisStatus.progress with hsP
  set aP := (analyticsStep env).1.map AnalysisStatus.progress with haP
  have h98 : BddSeg 98 100 [98, 100] :=
    ⟨by simp [List.pairwise_cons], by intro x hx; simp at hx; omega⟩
  have h87 : BddSeg 87 87 [87] :=
    ⟨List.pairwise_singleton _ _, by intro x hx; simp at hx; omega⟩
  have h65 : BddSeg 65 65 [65] :=
    ⟨List.pairwise_singleton _ _, by intro x hx; simp at hx; omega⟩
  have h5555 : BddSeg 55 55 [55, 55] :=
    ⟨by simp [List.pairwise_cons], by intro x hx; simp at hx; omega⟩
  have h3040 : BddSeg 30 40 [30, 32, 40] :=
    ⟨by simp [List.pairwise_cons], by intro x hx; simp at hx; omega⟩
  have hhead : BddSeg 0 20 [0, 10, 15, 20] :=
    ⟨by simp [List.pairwise_cons], by intro x hx; simp at hx; omega⟩
  have s1 : BddSeg 90 100 (aP ++ [98, 100]) :=
    hAseg.append h98 (by omega) (by omega) (by omega) (by omega) (by omega)
  have s2 : BddSeg 87 100 ([87] ++ (aP ++ [98, 100])) :=
    h87.append s1 (by omega) (by omega) (by omega) (by omega) (by omega)
  have s3 : BddSeg 70 100 (sP ++ ([87] ++ (aP ++ [98, 100]))) :=
    hSseg.append s2 (by omega) (by omega) (by omega) (by omega) (by omega)
  have s4 : BddSeg 65 100 ([65] ++ (sP ++ ([87] ++ (aP ++ [98, 100])))) :=
    h65.append s3 (by omega) (by omega) (by omega) (by omega) (by omega)
  have s5 : BddSeg 55 100 (rP ++ ([65] ++ (sP ++ ([87] ++ (aP ++ [98, 100]))))) :=
    hRseg.append s4 (by omega) (by omega) (by omega) (by omega) (by omega)
  have s6 : BddSeg 55 100
      ([55, 55] ++ (rP ++ ([65] ++ (sP ++ ([87] ++ (aP ++ [98, 100])))))) :=
    h5555.append s5 (by omega) (by omega) (by omega) (by omega) (by omega)
  have s7 : BddSeg 40 100
      (cP ++ ([55, 55] ++ (rP ++ ([65] ++ (sP ++ ([87] ++ (aP ++ [98, 100]))))))) :=
    hCseg.append s6 (by omega) (by omega) (by omega) (by omega) (by omega)
  have s8 : BddSeg 30 100
      ([30, 32, 40] ++
        (cP ++ ([55, 55] ++ (rP ++ ([65] ++ (sP ++ ([87] ++ (aP ++ [98, 100])))))))) :=
    h3040.append s7 (by omega) (by omega) (by omega) (by omega) (by omega)
  have s9 : BddSeg 20 100
      (iP ++
        ([30, 32, 40] ++
          (cP ++ ([55, 55] ++ (rP ++ ([65] ++ (sP ++ ([87] ++ (aP ++ [98, 100]))))))))) :=
    hIseg.append s8 (by omega) (by omega) (by omega) (by omega) (by omega)
  have s10 : BddSeg 0 100
      ([0, 10, 15, 20] ++
        (iP ++
          ([30, 32, 40] ++
            (cP ++
              ([55, 55] ++ (rP ++ ([65] ++ (sP ++ ([87] ++ (aP ++ [98, 100])))))))))) :=
    hhead.append s9 (by omega) (by omega) (by omega) (by omega) (by omega)
  refine ⟨List.chain'_iff_pairwise.mpr s10.1, rfl, ?_⟩
  have n0 : ([98, 100] : List ℕ) ≠ [] := by simp
  have nA := List.append_ne_nil_of_right_ne_nil aP n0
  have n87 := List.append_ne_nil_of_right_ne_nil [87] nA
  have nS := List.append_ne_nil_of_right_ne_nil sP n87
  have n65 := List.append_ne_nil_of_right_ne_nil [65] nS
  have nR := List.append_ne_nil_of_right_ne_nil rP n65
  have n55 := List.append_ne_nil_of_right_ne_nil [55, 55] nR
  have nC := List.append_ne_nil_of_right_ne_nil cP n55
  have n30 := List.append_ne_nil_of_right_ne_nil [30, 32, 40] nC
  have nI := List.append_ne_nil_of_right_ne_nil iP n30
  rw [List.getLast?_append_of_ne_nil _ nI, List.getLast?_append_of_ne_nil _ n30,
    List.getLast?_append_of_ne_nil _ nC, List.getLast?_append_of_ne_nil _ n55,
    List.getLast?_append_of_ne_nil _ nR, List.getLast?_append_of_ne_nil _ n65,
    List.getLast?_append_of_ne_nil _ nS, List.getLast?_append_of_ne_nil _ n87,
    List.getLast?_append_of_ne_nil _ nA, List.getLast?_append_of_ne_nil _ n0]
  rfl

/-- C6 amended witness: a benign environment — one 50-item issues page, no
commits or releases pages — satisfies the in-limit hypotheses, and its
progress sequence is monotone from 0 to 100. -/
theorem analyzeRepository_progress_monotone_witness :
    List.Chain' (· ≤ ·) (((analyzeRepository smallEnv).1).map AnalysisStatus.progress) ∧
    (((analyzeRepository smallEnv).1).map AnalysisStatus.progress).head? = some 0 ∧
    (((analyzeRepository smallEnv).1).map AnalysisStatus.progress).getLast? = some 100 :=
  analyzeRepository_progress_monotone smallEnv exRepository rfl
    (by decide) (by decide) (by decide)

end RepoPulse
